import Mathlib

/-!
Verification of the response-coercion and panel-assembly pipeline of the
SNAYZZE72/server repository.

The Python source is shallowly embedded: every definition below is a direct
translation of a function (or an inline code block) of the repository.  Python
`str` values are modelled as Lean `String` (logically a list of characters in
this Lean version); the Python string primitives used by the source
(`lower`, `replace`, `split`, `split(sep, 1)`, `strip`, `startswith`, `in`)
are implemented here as executable character-list functions so that every
theorem can be checked by evaluation.  JSON objects with optional keys are
modelled as structures with `Option` fields (`none` = key absent), and Python
exceptions as `Except` values.
-/

/-- Python `str.lower` restricted to ASCII, which is the only alphabet the
source tables use. -/
def pyLower (s : String) : String := ⟨s.data.map Char.toLower⟩

/-- Python `str.replace(a, b)` for single-character `a`, `b`
(the source only uses `replace('_', '-')`). -/
def replaceChar (a b : Char) (s : String) : String :=
  ⟨s.data.map (fun c => if c = a then b else c)⟩

/-- Character-list splitter underlying Python `str.split(sep)` for a
single-character separator. -/
def splitChar (sep : Char) : List Char → List (List Char)
  | [] => [[]]
  | c :: cs =>
    let r := splitChar sep cs
    if c = sep then [] :: r
    else
      match r with
      | [] => [[c]]
      | g :: gs => (c :: g) :: gs

/-- Python `str.split(sep)` for a single-character separator. -/
def pySplit (sep : Char) (s : String) : List String :=
  (splitChar sep s.data).map (fun l => ⟨l⟩)

/-- Finds the first occurrence of `sep`, returning the characters before and
after it (`none` when `sep` does not occur). -/
def breakAtChar (sep : Char) : List Char → Option (List Char × List Char)
  | [] => none
  | c :: cs =>
    if c = sep then some ([], cs)
    else
      match breakAtChar sep cs with
      | none => none
      | some (pre, post) => some (c :: pre, post)

/-- Python `str.split(sep, 1)` for a single-character separator: at most one
split, so the result has one or two elements. -/
def pySplitOnce (sep : Char) (s : String) : List String :=
  match breakAtChar sep s.data with
  | none => [s]
  | some (pre, post) => [⟨pre⟩, ⟨post⟩]

/-- The whitespace characters stripped by Python `str.strip()` that can occur
in this pipeline's data. -/
def isSpaceChar (c : Char) : Bool := c = ' ' || c = '\t' || c = '\n' || c = '\r'

/-- Python `str.strip()`. -/
def pyStrip (s : String) : String :=
  ⟨((s.data.dropWhile isSpaceChar).reverse.dropWhile isSpaceChar).reverse⟩

/-- Whether `pre` is a prefix of the character list, as a Boolean. -/
def prefixCh : List Char → List Char → Bool
  | [], _ => true
  | _ :: _, [] => false
  | a :: as, b :: bs => a = b && prefixCh as bs

/-- Python `str.startswith(pre)`. -/
def pyStartsWith (s pre : String) : Bool := prefixCh pre.data s.data

/-- Python substring test `needle in hay`. -/
def containsSub (needle : List Char) : List Char → Bool
  | [] => needle.isEmpty
  | c :: cs => prefixCh needle (c :: cs) || containsSub needle cs

/-- Python dict membership-plus-index `d[k] if k in d`, over an association
list that records the dict's insertion order. -/
def assocLookup (k : String) : List (String × String) → Option String
  | [] => none
  | p :: ps => if p.1 = k then some p.2 else assocLookup k ps

/-- `horiz_map` from `StoryService.generate_panels`
(src/services/story_service.py lines 119-124). -/
def horiz_map : List (String × String) :=
  [("left", "left"), ("center", "center"), ("middle", "center"), ("right", "right")]

/-- `vert_map` from `StoryService.generate_panels`
(src/services/story_service.py lines 125-132). -/
def vert_map : List (String × String) :=
  [("top", "top"), ("upper", "top"), ("middle", "center"), ("center", "center"),
   ("bottom", "bottom"), ("lower", "bottom")]

/-- One iteration of the `for part in parts` loop of the position
normalization (src/services/story_service.py lines 139-143): a part found in
`horiz_map` updates the horizontal component, otherwise a part found in
`vert_map` updates the vertical component, otherwise it is ignored.  The
state is the pair `(horiz, vert)`. -/
def posStep (hv : String × String) (part : String) : String × String :=
  match assocLookup part horiz_map with
  | some h => (h, hv.2)
  | none =>
    match assocLookup part vert_map with
    | some v => (hv.1, v)
    | none => hv

/-- Position normalization applied during panel assembly
(src/services/story_service.py lines 114-146): lower-case, replace `_` by
`-`, split on `-`, fold the synonym tables over the parts starting from the
defaults `horiz = "left"`, `vert = "top"`, and emit `"<vert>-<horiz>"`. -/
def normalizePosition (position : String) : String :=
  let parts := pySplit '-' (replaceChar '_' '-' (pyLower position))
  let hv := parts.foldl posStep ("left", "top")
  hv.2 ++ "-" ++ hv.1

/-- The 9-element canonical position grid named by the specification. -/
def canonical9 : List String :=
  ["top-left", "top-center", "top-right",
   "center-left", "center-center", "center-right",
   "bottom-left", "bottom-center", "bottom-right"]

/-- All position strings built from one vertical-vocabulary token and one
horizontal-vocabulary token joined by `-` or `_` (the input family of the
specification's position property). -/
def positionInputs : List String :=
  (["top", "upper", "bottom", "lower", "center", "middle"].map (fun v =>
    (["left", "center", "middle", "right"].map (fun h =>
      ["-", "_"].map (fun sep => v ++ sep ++ h))).flatten)).flatten

/-- `direction_map` for tail directions (src/services/story_service.py
lines 152-164). -/
def direction_map : List (String × String) :=
  [("up", "top"), ("upward", "top"), ("upwards", "top"),
   ("down", "bottom"), ("downward", "bottom"), ("downwards", "bottom"),
   ("left", "left"), ("leftward", "left"),
   ("right", "right"), ("rightward", "right"),
   ("none", "none")]

/-- Tail-direction normalization (src/services/story_service.py lines
166-174): exact lower-cased match against `direction_map`, else `"bottom"`
when the phrase contains `"pointing"`, else `"bottom"`. -/
def normalizeTailDirection (tail : String) : String :=
  match assocLookup (pyLower tail) direction_map with
  | some d => d
  | none =>
    if containsSub "pointing".data (pyLower tail).data then "bottom"
    else "bottom"

/-- `style_map` for bubble styles (src/services/story_service.py lines
180-193). -/
def style_map : List (String × String) :=
  [("normal", "normal"), ("regular", "normal"),
   ("thought", "thought"), ("thinking", "thought"),
   ("shout", "shout"), ("shouted", "shout"), ("shouting", "shout"),
   ("yell", "shout"), ("yelling", "shout"),
   ("whisper", "whisper"), ("whispering", "whisper"), ("quiet", "whisper")]

/-- Style normalization (src/services/story_service.py lines 195-199):
lower-cased lookup in `style_map`, defaulting to `"normal"`. -/
def normalizeStyle (style : String) : String :=
  match assocLookup (pyLower style) style_map with
  | some s => s
  | none => "normal"

/-- `size_mapping` for panel sizes (src/services/story_service.py lines
224-237). -/
def size_mapping : List (String × String) :=
  [("full-width", "full"), ("full_width", "full"), ("fullwidth", "full"),
   ("half-width", "half"), ("half_width", "half"), ("halfwidth", "half"),
   ("third-width", "third"), ("third_width", "third"), ("thirdwidth", "third"),
   ("quarter-width", "quarter"), ("quarter_width", "quarter"),
   ("quarterwidth", "quarter")]

/-- The four canonical panel sizes accepted by `Panel.validate_size`
(src/models/panel.py lines 25-31). -/
def allowedSizes : List String := ["full", "half", "third", "quarter"]

/-- Panel-size normalization (src/services/story_service.py lines 222-241):
exact lookup in `size_mapping`; otherwise the value is kept when it is
already canonical and replaced by `"full"` when it is not. -/
def normalizePanelSize (panel_size : String) : String :=
  match assocLookup panel_size size_mapping with
  | some v => v
  | none => if panel_size ∈ allowedSizes then panel_size else "full"

/-- A dialogue entry as a JSON object whose `character` and `text` keys may
each be absent (`none` models a missing key). -/
structure DialogueObj where
  character? : Option String
  text? : Option String
deriving DecidableEq

/-- A fully-normalized dialogue record: both keys present. -/
structure DialogueRecord where
  character : String
  text : String
deriving DecidableEq

/-- The four shapes the model may return for a panel's `dialogue` field:
a single string, a list of strings, a list of objects, or a mapping from
character name to line (as an insertion-ordered association list). -/
inductive DialogueInput where
  | str (s : String)
  | strList (l : List String)
  | objList (l : List DialogueObj)
  | mapping (m : List (String × String))
deriving DecidableEq

/-- Python truthiness of the `dialogue` value (`if panel["dialogue"]:`). -/
def dialogueTruthy : DialogueInput → Bool
  | .str s => !s.data.isEmpty
  | .strList l => !l.isEmpty
  | .objList l => !l.isEmpty
  | .mapping m => !m.isEmpty

/-- Python `repr` of a string-to-string dict, as produced by `str(d)`
(used by the source when a non-list dialogue value is stringified). -/
def pyDictRepr (m : List (String × String)) : String :=
  "\x7b" ++
    String.intercalate ", "
      (m.map (fun p => "'" ++ p.1 ++ "': '" ++ p.2 ++ "'")) ++ "\x7d"

/-- Normalization of one dialogue line of a list-of-strings dialogue
(src/core/ai.py lines 212-221): split on the first colon into
character/text (each stripped), or keep the whole line as text with the
`"Character"` placeholder. -/
def normLine (line : String) : DialogueRecord :=
  match pySplitOnce ':' line with
  | [c, t] => ⟨pyStrip c, pyStrip t⟩
  | _ => ⟨"Character", line⟩

/-- Dialogue normalization performed by `AI._make_request` on each panel of a
`PanelDescriptionsResponse` (src/core/ai.py lines 193-231).
A single string is stripped and split on its first colon; a list of strings
is normalized line by line; a list of objects has missing keys filled with
`"Character"` / `"..."` by the final ensure-loop; any non-list value (in
particular a mapping) is collapsed to one record whose text is the Python
string rendering of the value. -/
def aiNormalizeDialogue : DialogueInput → List DialogueRecord
  | .str s =>
    let t := pyStrip s
    match pySplitOnce ':' t with
    | [c, txt] => [⟨pyStrip c, pyStrip txt⟩]
    | _ => [⟨"Character", t⟩]
  | .strList l => l.map normLine
  | .objList l => l.map (fun o => ⟨o.character?.getD "Character", o.text?.getD "..."⟩)
  | .mapping m => [⟨"Character", pyDictRepr m⟩]

/-- The dict-shaped dialogue conversion in `StoryService.generate_panels`
(src/services/story_service.py lines 100-101): each mapping entry becomes
one `{character, text}` record, in insertion order. -/
def serviceMappingToRecords (m : List (String × String)) : List DialogueRecord :=
  m.map (fun p => ⟨p.1, p.2⟩)

/-- The shape of a `setting` JSON value: a dict (with its entries) or some
other JSON value. -/
inductive SettingVal where
  | dictVal (entries : List (String × String))
  | otherVal
deriving DecidableEq

/-- A raw story JSON object restricted to the keys inspected by the
default-inference rules; `none` models an absent key. -/
structure StoryJson where
  theme? : Option String
  mood? : Option String
  plot_summary? : Option String
  setting? : Option SettingVal
deriving DecidableEq

/-- Theme default-inference of `AI._make_request` for `StoryResponse`
(src/core/ai.py lines 151-159): a present `theme` is kept; otherwise a
present `plot_summary` gives the plot-derived default, a present non-empty
dict `setting` gives the setting-related default, and anything else the
generic default. -/
def inferTheme (j : StoryJson) : String :=
  match j.theme? with
  | some t => t
  | none =>
    match j.plot_summary? with
    | some _ => "Themes derived from the plot"
    | none =>
      match j.setting? with
      | some (.dictVal entries) =>
        if entries.isEmpty then "Adventure and discovery"
        else "Themes related to the setting"
      | _ => "Adventure and discovery"

/-- Mood default-inference of `AI._make_request` for `StoryResponse`
(src/core/ai.py lines 161-169): a present `mood` is kept; otherwise
`"tragic"` in the lower-cased plot summary gives the somber default,
`"action"` or `"battle"` the intense default, and anything else the
balanced default. -/
def inferMood (j : StoryJson) : String :=
  match j.mood? with
  | some m => m
  | none =>
    match j.plot_summary? with
    | some p =>
      if containsSub "tragic".data (pyLower p).data then "Somber and reflective"
      else if containsSub "action".data (pyLower p).data
              || containsSub "battle".data (pyLower p).data then
        "Intense and dramatic"
      else "Balanced mix of light and serious moments"
    | none => "Balanced mix of light and serious moments"

/-- The `characters` field of a raw panel descriptor: absent, present but
not a list, or present as a list. -/
inductive CharsField where
  | missing
  | notAList
  | listValue (chars : List String)
deriving DecidableEq

/-- The guard `"characters" not in panel or not isinstance(panel["characters"],
list) or not panel["characters"]` (src/core/ai.py line 175). -/
def charsFieldInvalid : CharsField → Bool
  | .missing => true
  | .notAList => true
  | .listValue l => l.isEmpty

/-- Insertion-order deduplication standing in for Python's
`list(set(...))` (whose iteration order is unspecified); only used on the
list-of-objects branch, which no claim depends on. -/
def dedupFirstAux (seen : List String) : List String → List String
  | [] => []
  | x :: xs =>
    if x ∈ seen then dedupFirstAux seen xs
    else x :: dedupFirstAux (x :: seen) xs

/-- First-occurrence deduplication entry point. -/
def dedupFirst : List String → List String := dedupFirstAux []

/-- Character extraction from the `dialogue` field when the `characters`
field is missing/invalid (src/core/ai.py lines 176-191): a truthy string
dialogue is split on its first colon and the stripped head becomes the sole
character; a list of objects whose first element has a `character` key
contributes the set of its character values; every other case yields the
`["Character"]` placeholder. -/
def extractFromDialogue : Option DialogueInput → List String
  | some d =>
    if dialogueTruthy d then
      match d with
      | .str s =>
        match pySplitOnce ':' s with
        | [] => ["Character"]
        | c :: _ => [pyStrip c]
      | .objList l =>
        if (l.headD ⟨none, none⟩).character?.isSome then
          dedupFirst (l.filterMap (fun o => o.character?))
        else ["Character"]
      | _ => ["Character"]
    else ["Character"]
  | none => ["Character"]

/-- The full characters-repair rule (src/core/ai.py lines 175-191): a valid
non-empty list is kept, anything else is replaced by the extraction from
`dialogue`. -/
def repairCharacters (chars : CharsField) (dialogue : Option DialogueInput) :
    List String :=
  match chars with
  | .listValue l => if l.isEmpty then extractFromDialogue dialogue else l
  | _ => extractFromDialogue dialogue

/-- A speech-bubble layout suggestion as returned by
`AI.generate_speech_bubbles`: after validation against the pydantic
`SpeechBubble` schema of src/core/ai.py lines 39-45 and `model_dump`, all
five fields are present strings. -/
structure BubbleData where
  text : String
  character : String
  position : String
  style : String
  tail_direction : String
deriving DecidableEq

/-- A constructed `models.speech_bubble.SpeechBubble` restricted to the
fields panel assembly sets explicitly (`size` keeps its default `"medium"`
and `font_style` its default `None` throughout the source, so they are
omitted). -/
structure SpeechBubbleRec where
  text : String
  character : String
  position : String
  style : String
  tail_direction : String
deriving DecidableEq

/-- `SpeechBubble.validate_style` (src/models/speech_bubble.py). -/
def validStyle (s : String) : Bool := s ∈ ["normal", "thought", "shout", "whisper"]

/-- `SpeechBubble.validate_tail_direction` (src/models/speech_bubble.py). -/
def validTail (t : String) : Bool := t ∈ ["top", "right", "bottom", "left", "none"]

/-- `SpeechBubble.validate_position` for string positions
(src/models/speech_bubble.py): at most two `-`-separated parts, the first in
{top, center, bottom}, the second (when present) in {left, center, right}. -/
def validPosition (p : String) : Bool :=
  let parts := pySplit '-' p
  decide (parts.length ≤ 2) &&
    (match parts with
     | [] => true
     | v :: rest =>
       (v ∈ ["top", "center", "bottom"]) &&
         (match rest with
          | [] => true
          | h :: _ => h ∈ ["left", "center", "right"]))

/-- `SpeechBubble(...)` construction: pydantic runs the field validators and
raises on the first failure. -/
def mkSpeechBubble (text character position style tail : String) :
    Except String SpeechBubbleRec :=
  if !validPosition position then .error "position"
  else if !validStyle style then .error "style"
  else if !validTail tail then .error "tail_direction"
  else .ok ⟨text, character, position, style, tail⟩

/-- The per-bubble body of the success path of
`StoryService.generate_panels` (src/services/story_service.py lines
109-208): each attribute is normalized when it is a non-empty string (the
`if value and isinstance(value, str)` guards) and the `SpeechBubble` is
constructed from the normalized values. -/
def canonicalizeBubble (b : BubbleData) : Except String SpeechBubbleRec :=
  mkSpeechBubble b.text b.character
    (if b.position.data.isEmpty then b.position else normalizePosition b.position)
    (if b.style.data.isEmpty then b.style else normalizeStyle b.style)
    (if b.tail_direction.data.isEmpty then b.tail_direction
     else normalizeTailDirection b.tail_direction)

/-- One fallback bubble of the except-branch (src/services/story_service.py
lines 212-219): position alternates `top-left` / `bottom-right` with the
line index, style `normal`, tail `bottom`. -/
def fallbackBubble (j : Nat) (d : DialogueObj) : SpeechBubbleRec :=
  { text := d.text?.getD ""
    character := d.character?.getD "Character"
    position := if j % 2 = 0 then "top-left" else "bottom-right"
    style := "normal"
    tail_direction := "bottom" }

/-- The `for j, d in enumerate(dialogue)` fallback loop, carrying the
running index. -/
def fallbackAux (j : Nat) : List DialogueObj → List SpeechBubbleRec
  | [] => []
  | d :: ds => fallbackBubble j d :: fallbackAux (j + 1) ds

/-- The whole fallback branch: one synthesized bubble per dialogue line. -/
def fallbackBubbles (dialogue : List DialogueObj) : List SpeechBubbleRec :=
  fallbackAux 0 dialogue

/-- The bubble-construction loop over the layout collaborator's data
(src/services/story_service.py lines 109-219).  The `try` block appends
canonicalized bubbles one by one; an exception raised while processing a
bubble aborts the loop, keeps the bubbles already appended, and appends the
fallback bubbles for every dialogue line after them. -/
def buildBubblesFromData (dialogue : List DialogueObj) :
    List BubbleData → List SpeechBubbleRec
  | [] => []
  | b :: bs =>
    match canonicalizeBubble b with
    | .ok sb => sb :: buildBubblesFromData dialogue bs
    | .error _ => fallbackBubbles dialogue

/-- The speech-bubble stage of panel assembly
(src/services/story_service.py lines 104-219) for a panel whose dialogue has
already been brought into list-of-objects form: no bubbles without dialogue;
otherwise the layout call either succeeds with a list of suggestions
(`Except.ok`) that are canonicalized one by one, or fails after its retries
(`Except.error`), in which case the deterministic fallback synthesizes the
bubbles.  The stage itself never fails: it is a total function. -/
def buildSpeechBubbles (dialogue : List DialogueObj)
    (layout : Except String (List BubbleData)) : List SpeechBubbleRec :=
  if dialogue.isEmpty then []
  else
    match layout with
    | .ok data => buildBubblesFromData dialogue data
    | .error _ => fallbackBubbles dialogue

/-- The kinds of exceptions that can escape the body of
`AI._make_request`: the two upstream API error classes named by the retry
predicate, the `ValueError` raised on parse/validation failure, and any
other exception. -/
inductive ErrKind where
  | apiError
  | rateLimitError
  | valueError
  | otherError
deriving DecidableEq

/-- An exception value: its class and its message. -/
structure Err where
  kind : ErrKind
  msg : String
deriving DecidableEq

/-- The retry predicate `retry_if_exception_type((APIError, RateLimitError))`
of the decorator on `AI._make_request` (src/core/ai.py line 99). -/
def isTransientErr : ErrKind → Bool
  | .apiError => true
  | .rateLimitError => true
  | .valueError => false
  | .otherError => false

/-- Tenacity `wait_exponential(multiplier, min, max)`: the sleep after the
`attemptNumber`-th failed attempt is `multiplier * 2 ^ attemptNumber`
clamped into `[minW, maxW]`. -/
def waitExponential (multiplier minW maxW attemptNumber : Nat) : Nat :=
  max minW (min (multiplier * 2 ^ attemptNumber) maxW)

deriving instance DecidableEq for Except

/-- The observable outcome of a retried call: the value returned or the
exception re-raised, the number of the attempt on which the loop stopped,
and the sequence of backoff sleeps performed. -/
structure RetryOutcome (α : Type) where
  result : Except Err α
  lastAttempt : Nat
  delays : List Nat
deriving DecidableEq

/-- Tenacity's retry loop for `stop_after_attempt` with `reraise=True`
(the decorator of src/core/ai.py lines 98-103): `f n` is the outcome of the
`n`-th execution of the wrapped body, `fuel` the number of attempts still
allowed.  A success returns immediately; a non-transient exception is
re-raised immediately; a transient exception on the final allowed attempt is
re-raised as-is (`reraise=True`); otherwise the loop sleeps
`waitExponential 1 2 10 n` and tries again. -/
def retryGo (f : Nat → Except Err α) : Nat → Nat → RetryOutcome α
  | n, 0 => ⟨.error ⟨.otherError, "no attempt allowed"⟩, n, []⟩
  | n, fuel + 1 =>
    match f n with
    | .ok a => ⟨.ok a, n, []⟩
    | .error e =>
      if isTransientErr e.kind then
        if fuel = 0 then ⟨.error e, n, []⟩
        else
          ⟨(retryGo f (n + 1) fuel).result, (retryGo f (n + 1) fuel).lastAttempt,
           waitExponential 1 2 10 n :: (retryGo f (n + 1) fuel).delays⟩
      else ⟨.error e, n, []⟩

/-- `AI._make_request` under its decorator
`@retry(retry=retry_if_exception_type((APIError, RateLimitError)),
stop=stop_after_attempt(3), wait=wait_exponential(multiplier=1, min=2,
max=10), reraise=True)`: at most 3 attempts starting at attempt 1. -/
def makeRequestRetry (f : Nat → Except Err α) : RetryOutcome α := retryGo f 1 3

/-- A minimal `models.panel.Panel` record with the fields the image stage
touches. -/
structure PanelRec where
  panel_id : String
  description : String
  characters : List String
  speech_bubbles : List SpeechBubbleRec
  size : String
  image_path : Option String
deriving DecidableEq

/-- `config.get_image_url` (src/config.py): absolute `http(s)` locators are
returned unchanged; otherwise one leading slash is dropped and the base URL
(the `BASE_URL` environment value, default `http://localhost:8000`) is
prepended with a single slash. -/
def get_image_url (baseUrl relative_path : String) : String :=
  if pyStartsWith relative_path "http://" || pyStartsWith relative_path "https://" then
    relative_path
  else
    baseUrl ++ "/" ++
      (if pyStartsWith relative_path "/" then (⟨relative_path.data.drop 1⟩ : String)
       else relative_path)

/-- The fixed placeholder locator used by the image-stage fallback
(src/core/manga_generator.py lines 119-120). -/
def placeholder_url (baseUrl : String) : String :=
  get_image_url baseUrl "static/images/placeholder.jpg"

/-- `MangaGenerator.generate_image_for_panel` (src/core/manga_generator.py
lines 87-122) with the image-service call's outcome passed in: a successful
call stores and returns its URL; any exception is absorbed and the fixed
placeholder URL is stored and returned instead.  The function is total: no
exception escapes this stage. -/
def generate_image_for_panel (baseUrl : String) (panel : PanelRec)
    (svc : Except Err (String × String)) : PanelRec × String :=
  match svc with
  | .ok (_, image_url) => ({ panel with image_path := some image_url }, image_url)
  | .error _ =>
    ({ panel with image_path := some (placeholder_url baseUrl) }, placeholder_url baseUrl)

/-! ## Helper lemmas (shared infrastructure) -/

/-- An association-list lookup misses when no key matches. -/
theorem assocLookup_eq_none_of_forall {k : String} :
    ∀ tbl : List (String × String), (∀ p ∈ tbl, p.1 ≠ k) → assocLookup k tbl = none
  | [], _ => rfl
  | p :: ps, h => by
    have hp : p.1 ≠ k := h p (List.mem_cons_self p ps)
    simp [assocLookup, hp,
      assocLookup_eq_none_of_forall ps (fun q hq => h q (List.mem_cons_of_mem _ hq))]

/-- A successful association-list lookup returns a pair of the list. -/
theorem assocLookup_mem {k v : String} :
    ∀ tbl : List (String × String), assocLookup k tbl = some v → (k, v) ∈ tbl
  | [], h => by simp [assocLookup] at h
  | p :: ps, h => by
    by_cases hp : p.1 = k
    · simp [assocLookup, hp] at h
      have hpv : p = (k, v) := by
        cases p with
        | mk a b => simp_all
      exact List.mem_cons.mpr (Or.inl hpv.symm)
    · simp [assocLookup, hp] at h
      exact List.mem_cons_of_mem _ (assocLookup_mem ps h)

/-- A character absent from the list is never found by `breakAtChar`. -/
theorem breakAtChar_eq_none {sep : Char} :
    ∀ l : List Char, sep ∉ l → breakAtChar sep l = none
  | [], _ => rfl
  | c :: cs, h => by
    have hc : ¬ c = sep := fun e => h (e ▸ List.mem_cons_self c cs)
    have hcs : sep ∉ cs := fun hm => h (List.mem_cons_of_mem _ hm)
    simp [breakAtChar, hc, breakAtChar_eq_none cs hcs]

/-- A string differing from `""` has non-empty character data. -/
theorem string_data_nonempty {s : String} (h : s ≠ "") : s.data.isEmpty = false := by
  cases s with
  | mk l =>
    cases l with
    | nil => exact absurd (by rfl) h
    | cons c cs => rfl

/-! ## Claim theorems -/

/-- C1 counterexample: the claim's idempotence half fails on the canonical
value `"center-left"`: because the `"center"` token is matched by the
horizontal table first (and then overwritten by `"left"`), re-normalizing
the canonical string `"center-left"` yields `"top-left"`, not itself. -/
theorem position_normalization_not_idempotent_on_center :
    normalizePosition "center-left" = "top-left"
    ∧ ("top-left" : String) ≠ "center-left"
    ∧ "center-left" ∈ canonical9 := by decide

/-- C1 (amended): for every position string built from one token of
{top, upper, bottom, lower, center, middle} and one token of
{left, center, middle, right} joined by `-` or `_`, normalization returns a
value of the 9-element canonical grid; re-normalizing a canonical value
whose vertical component is `top` or `bottom` returns it unchanged; a
canonical value with vertical component `center` is instead mapped to
`top-<horizontal>` (its `center` token is consumed by the horizontal
table); and the normalization is idempotent as a function on this input
family. -/
theorem position_normalization_canonical :
    (positionInputs.all (fun s => canonical9.contains (normalizePosition s))) = true
    ∧ (["top-left", "top-center", "top-right",
        "bottom-left", "bottom-center", "bottom-right"].all
          (fun s => normalizePosition s == s)) = true
    ∧ (["left", "center", "right"].all
          (fun h => normalizePosition ("center-" ++ h) == ("top-" ++ h))) = true
    ∧ (positionInputs.all
          (fun s => normalizePosition (normalizePosition s) == normalizePosition s)) = true := by
  decide

/-- C9: every entry of the synonym table maps to its canonical size; every
string outside the table's keys and the four canonical values maps to
`"full"`; and the result is always one of the four canonical values. -/
theorem panel_size_normalization_total :
    (∀ p ∈ size_mapping, normalizePanelSize p.1 = p.2)
    ∧ (∀ s : String, (∀ p ∈ size_mapping, p.1 ≠ s) → s ∉ allowedSizes →
        normalizePanelSize s = "full")
    ∧ (∀ s : String, normalizePanelSize s ∈ allowedSizes) := by
  refine ⟨by decide, ?_, ?_⟩
  · intro s hvar hcanon
    have h := assocLookup_eq_none_of_forall size_mapping hvar
    simp [normalizePanelSize, h, hcanon]
  · intro s
    cases h : assocLookup s size_mapping with
    | some v =>
      have hm := assocLookup_mem size_mapping h
      have hall : ∀ p ∈ size_mapping, p.2 ∈ allowedSizes := by decide
      have hv := hall _ hm
      simpa [normalizePanelSize, h] using hv
    | none =>
      by_cases hc : s ∈ allowedSizes
      · simp [normalizePanelSize, h, hc]
      · simp [normalizePanelSize, h, hc]
        decide

/-- Witness for C9: a string that is neither a synonym-table key nor a
canonical value normalizes to `"full"`. -/
theorem panel_size_normalization_witness :
    normalizePanelSize "landscape" = "full" :=
  panel_size_normalization_total.2.1 "landscape" (by decide) (by decide)

/-- A story JSON object lacking `theme` and `mood` whose plot summary
mentions `"battle"` but also `"tragic"`. -/
def tragicBattleStory : StoryJson :=
  ⟨none, none, some "A tragic battle decides the war", none⟩

/-- C5 counterexample: the `"tragic"` lexical cue is checked before the
`"action"`/`"battle"` cue, so a story JSON lacking `theme` and `mood` whose
plot summary mentions `"battle"` can still receive the somber default
instead of the intense one. -/
theorem story_mood_battle_counterexample :
    tragicBattleStory.theme? = none
    ∧ tragicBattleStory.mood? = none
    ∧ containsSub "battle".data (pyLower "A tragic battle decides the war").data = true
    ∧ inferMood tragicBattleStory = "Somber and reflective"
    ∧ inferMood tragicBattleStory ≠ "Intense and dramatic" := by decide

/-- C5 (amended): for every story JSON object that lacks both `theme` and
`mood` and whose `plot_summary` mentions `"battle"` (lower-cased) but not
`"tragic"`, coercion yields the intense mood default
`"Intense and dramatic"` and a non-empty theme. -/
theorem story_mood_battle_amended :
    ∀ (j : StoryJson) (p : String),
      j.theme? = none → j.mood? = none → j.plot_summary? = some p →
      containsSub "battle".data (pyLower p).data = true →
      containsSub "tragic".data (pyLower p).data = false →
      inferMood j = "Intense and dramatic" ∧ inferTheme j ≠ "" := by
  intro j p ht hm hp hb htr
  constructor
  · simp [inferMood, hm, hp, htr, hb]
  · have h : inferTheme j = "Themes derived from the plot" := by
      simp [inferTheme, ht, hp]
    rw [h]
    decide

/-- Witness for C5 (amended) at a concrete battle-mentioning story. -/
theorem story_mood_battle_witness :
    inferMood ⟨none, none, some "The final battle begins", none⟩ = "Intense and dramatic" :=
  (story_mood_battle_amended ⟨none, none, some "The final battle begins", none⟩
    "The final battle begins" rfl rfl rfl (by decide) (by decide)).1

/-- C10: when the `characters` field is missing, not a list, or an empty
list and the `dialogue` field is a non-empty string, the repaired character
list is exactly the stripped substring of the dialogue before its first
colon; for a colon-free dialogue string that is the entire (stripped) line.
The `["Character"]` placeholder branch of this string path
(src/core/ai.py line 184) is therefore unreachable: the result is always
the stripped head of the split, never the placeholder branch's output. -/
theorem characters_from_string_dialogue :
    ∀ (chars : CharsField) (s : String),
      charsFieldInvalid chars = true → s ≠ "" →
      repairCharacters chars (some (.str s)) = [pyStrip ((pySplitOnce ':' s).headD "")]
      ∧ (':' ∉ s.data → repairCharacters chars (some (.str s)) = [pyStrip s]) := by
  intro chars s hinv hs
  have htr : dialogueTruthy (.str s) = true := by
    simp [dialogueTruthy, string_data_nonempty hs]
  have hext : extractFromDialogue (some (.str s)) =
      [pyStrip ((pySplitOnce ':' s).headD "")] := by
    cases hb : breakAtChar ':' s.data with
    | none => simp [extractFromDialogue, htr, pySplitOnce, hb]
    | some pr =>
      cases pr with
      | mk a b => simp [extractFromDialogue, htr, pySplitOnce, hb]
  have hrep : repairCharacters chars (some (.str s)) = extractFromDialogue (some (.str s)) := by
    cases chars with
    | missing => rfl
    | notAList => rfl
    | listValue l =>
      cases l with
      | nil => rfl
      | cons x xs => simp [charsFieldInvalid] at hinv
  refine ⟨by rw [hrep, hext], ?_⟩
  intro hcolon
  have hb := breakAtChar_eq_none s.data hcolon
  rw [hrep]
  simp [extractFromDialogue, htr, pySplitOnce, hb]

/-- Witness for C10: a colon-free dialogue string becomes the sole character
name in its entirety. -/
theorem characters_from_string_dialogue_witness :
    repairCharacters .missing (some (.str "I arrive")) = ["I arrive"] := by
  have h := (characters_from_string_dialogue .missing "I arrive" (by decide) (by decide)).2
    (by decide)
  rw [h]
  decide
/-- C2 counterexample: the AI-stage dialogue normalization collapses a
mapping of two character→line entries into a single record (its text being
the Python string rendering of the dict), so the output cardinality is 1,
not 2; and a string dialogue whose text after the colon is empty yields a
record with an empty `text` field. -/
theorem dialogue_normalization_counterexample :
    (aiNormalizeDialogue (.mapping [("A", "hi"), ("B", "yo")])).length ≠ 2
    ∧ aiNormalizeDialogue (.str "Alice:") = [⟨"Alice", ""⟩] := by decide

/-- C2 (amended): the AI-stage dialogue normalization returns records with
both fields structurally present and preserves cardinality for the single
string (one line), list-of-strings and list-of-objects shapes; a mapping
input is collapsed to a single record by the AI stage (the per-entry
expansion of a mapping happens only in the panel-assembly stage, which does
preserve its cardinality); defaulted fields (`"Character"`, `"..."`) are
non-empty, so list-of-objects records have non-empty fields whenever no
input field is the explicit empty string. -/
theorem dialogue_normalization_amended :
    (∀ s : String, (aiNormalizeDialogue (.str s)).length = 1)
    ∧ (∀ l : List String, (aiNormalizeDialogue (.strList l)).length = l.length)
    ∧ (∀ l : List DialogueObj, (aiNormalizeDialogue (.objList l)).length = l.length)
    ∧ (∀ m : List (String × String), (aiNormalizeDialogue (.mapping m)).length = 1)
    ∧ (∀ m : List (String × String), (serviceMappingToRecords m).length = m.length)
    ∧ (∀ l : List DialogueObj,
        (∀ o ∈ l, o.character? ≠ some "" ∧ o.text? ≠ some "") →
        ∀ r ∈ aiNormalizeDialogue (.objList l), r.character ≠ "" ∧ r.text ≠ "") := by
  refine ⟨?_, ?_, ?_, ?_, ?_, ?_⟩
  · intro s
    cases hb : breakAtChar ':' (pyStrip s).data with
    | none => simp [aiNormalizeDialogue, pySplitOnce, hb]
    | some pr =>
      cases pr with
      | mk a b => simp [aiNormalizeDialogue, pySplitOnce, hb]
  · intro l
    simp [aiNormalizeDialogue]
  · intro l
    simp [aiNormalizeDialogue]
  · intro m
    simp [aiNormalizeDialogue]
  · intro m
    simp [serviceMappingToRecords]
  · intro l hl r hr
    simp only [aiNormalizeDialogue, List.mem_map] at hr
    obtain ⟨o, ho, rfl⟩ := hr
    have hne := hl o ho
    constructor
    · cases hc : o.character? with
      | none => simp [hc]
      | some c =>
        have : c ≠ "" := fun h => hne.1 (by rw [hc, h])
        simpa [hc] using this
    · cases htx : o.text? with
      | none => simp [htx]
      | some t =>
        have : t ≠ "" := fun h => hne.2 (by rw [htx, h])
        simpa [htx] using this

/-- Witness for C2 (amended): the defaults filled into a one-object dialogue
with a missing `text` key are non-empty. -/
theorem dialogue_normalization_witness :
    ("Hero" : String) ≠ "" ∧ ("..." : String) ≠ "" :=
  dialogue_normalization_amended.2.2.2.2.2 [⟨some "Hero", none⟩] (by decide)
    ⟨"Hero", "..."⟩ (by decide)

/-- A one-line dialogue. -/
def oneLineDialogue : List DialogueObj := [⟨some "A", some "hi"⟩]

/-- A layout-collaborator response with two valid bubble suggestions for a
one-line dialogue. -/
def twoBubbleData : List BubbleData :=
  [⟨"hi", "A", "top-left", "normal", "bottom"⟩,
   ⟨"hi!", "A", "bottom-right", "shout", "top"⟩]

/-- C3 counterexample: on the success path the speech-bubble count is the
number of suggestions the layout collaborator returned, which the assembly
never checks against the dialogue length: two returned bubbles for a
one-line dialogue produce a panel with 2 bubbles, violating both
`len(speech_bubbles) == len(dialogue)` and `len(speech_bubbles) <=
len(dialogue)`. -/
theorem bubble_count_counterexample :
    (buildSpeechBubbles oneLineDialogue (.ok twoBubbleData)).length = 2
    ∧ oneLineDialogue.length = 1
    ∧ ¬ ((buildSpeechBubbles oneLineDialogue (.ok twoBubbleData)).length
          ≤ oneLineDialogue.length) := by decide

/-- All-ok canonicalization preserves the layout data's length. -/
theorem buildBubblesFromData_length_of_ok (d : List DialogueObj) :
    ∀ data : List BubbleData, (∀ b ∈ data, ∃ sb, canonicalizeBubble b = .ok sb) →
      (buildBubblesFromData d data).length = data.length
  | [], _ => rfl
  | b :: bs, h => by
    obtain ⟨sb, hsb⟩ := h b (List.mem_cons_self b bs)
    simp [buildBubblesFromData, hsb,
      buildBubblesFromData_length_of_ok d bs (fun x hx => h x (List.mem_cons_of_mem _ hx))]

/-- The fallback loop synthesizes one bubble per dialogue line. -/
theorem fallbackAux_length : ∀ (ds : List DialogueObj) (j : Nat),
    (fallbackAux j ds).length = ds.length
  | [], _ => rfl
  | d :: ds, j => by simp [fallbackAux, fallbackAux_length ds (j + 1)]

/-- Index-wise description of the fallback loop. -/
theorem fallbackAux_getElem? : ∀ (ds : List DialogueObj) (k j : Nat),
    (fallbackAux k ds)[j]? = (ds[j]?).map (fallbackBubble (k + j))
  | [], k, j => by simp [fallbackAux]
  | d :: ds, k, 0 => by simp [fallbackAux]
  | d :: ds, k, j + 1 => by
    have ih := fallbackAux_getElem? ds (k + 1) j
    simp only [fallbackAux, List.getElem?_cons_succ, ih]
    have harith : k + 1 + j = k + (j + 1) := by omega
    rw [harith]

/-- C3 (amended): when the dialogue is non-empty, the speech-bubble count
equals the number of layout suggestions on the success path (when every
suggestion canonicalizes without a validation error) and equals the
dialogue length on the fallback path; no relation between the success-path
count and the dialogue length is enforced. -/
theorem bubble_count_amended :
    (∀ (d : List DialogueObj) (data : List BubbleData),
      d ≠ [] → (∀ b ∈ data, ∃ sb, canonicalizeBubble b = .ok sb) →
      (buildSpeechBubbles d (.ok data)).length = data.length)
    ∧ (∀ (d : List DialogueObj) (e : String),
        d ≠ [] → (buildSpeechBubbles d (.error e)).length = d.length) := by
  constructor
  · intro d data hd hok
    have hde : d.isEmpty = false := by
      cases d with
      | nil => exact absurd rfl hd
      | cons x xs => rfl
    simp [buildSpeechBubbles, hde, buildBubblesFromData_length_of_ok d data hok]
  · intro d e hd
    have hde : d.isEmpty = false := by
      cases d with
      | nil => exact absurd rfl hd
      | cons x xs => rfl
    simp [buildSpeechBubbles, hde, fallbackBubbles, fallbackAux_length]

/-- Witness for C3 (amended): two valid layout suggestions for a one-line
dialogue produce two bubbles. -/
theorem bubble_count_witness :
    (buildSpeechBubbles oneLineDialogue (.ok twoBubbleData)).length = twoBubbleData.length := by
  have hok : ∀ b ∈ twoBubbleData, ∃ sb, canonicalizeBubble b = .ok sb := by
    intro b hb
    simp only [twoBubbleData, List.mem_cons, List.not_mem_nil, or_false] at hb
    rcases hb with rfl | rfl
    · exact ⟨⟨"hi", "A", "top-left", "normal", "bottom"⟩, by decide⟩
    · exact ⟨⟨"hi!", "A", "bottom-right", "shout", "bottom"⟩, by decide⟩
  exact bubble_count_amended.1 oneLineDialogue twoBubbleData (by decide) hok

/-- C4: when the layout call fails after its retries for a panel with a
non-empty dialogue, assembly still produces exactly one bubble per dialogue
line, with positions alternating `top-left` / `bottom-right` by line index,
style `normal` and tail direction `bottom`. -/
theorem fallback_bubbles_spec :
    ∀ (d : List DialogueObj) (e : String), d ≠ [] →
      (buildSpeechBubbles d (.error e)).length = d.length
      ∧ ∀ j : Nat, j < d.length →
          ∃ sb : SpeechBubbleRec,
            (buildSpeechBubbles d (.error e))[j]? = some sb
            ∧ sb.position = (if j % 2 = 0 then "top-left" else "bottom-right")
            ∧ sb.style = "normal"
            ∧ sb.tail_direction = "bottom" := by
  intro d e hd
  have hde : d.isEmpty = false := by
    cases d with
    | nil => exact absurd rfl hd
    | cons x xs => rfl
  have hbuild : buildSpeechBubbles d (.error e) = fallbackAux 0 d := by
    simp [buildSpeechBubbles, hde, fallbackBubbles]
  constructor
  · rw [hbuild, fallbackAux_length]
  · intro j hj
    refine ⟨fallbackBubble j d[j], ?_, rfl, rfl, rfl⟩
    rw [hbuild, fallbackAux_getElem?, List.getElem?_eq_getElem hj]
    simp

/-- A three-line dialogue. -/
def threeLineDialogue : List DialogueObj :=
  [⟨some "A", some "one"⟩, ⟨some "B", some "two"⟩, ⟨some "C", some "three"⟩]

/-- Witness for C4: three dialogue lines yield three fallback bubbles when
the layout call fails. -/
theorem fallback_bubbles_witness :
    (buildSpeechBubbles threeLineDialogue (.error "layout failed")).length = 3 := by
  have h := (fallback_bubbles_spec threeLineDialogue "layout failed" (by decide)).1
  rw [h]
  decide

/-- C8: when the image-service call for a panel fails, the image stage
absorbs the exception (the stage is a total function) and stores the fixed
placeholder locator — the placeholder path resolved against the base URL —
in the panel's `image_path`, also returning it. -/
theorem image_placeholder_fallback :
    ∀ (baseUrl : String) (panel : PanelRec) (e : Err),
      (generate_image_for_panel baseUrl panel (.error e)).1.image_path
          = some (placeholder_url baseUrl)
      ∧ (generate_image_for_panel baseUrl panel (.error e)).2 = placeholder_url baseUrl
      ∧ placeholder_url baseUrl = baseUrl ++ "/" ++ "static/images/placeholder.jpg" := by
  intro baseUrl panel e
  refine ⟨rfl, rfl, ?_⟩
  have h1 : pyStartsWith "static/images/placeholder.jpg" "http://" = false := by decide
  have h2 : pyStartsWith "static/images/placeholder.jpg" "https://" = false := by decide
  have h3 : pyStartsWith "static/images/placeholder.jpg" "/" = false := by decide
  simp [placeholder_url, get_image_url, h1, h2, h3]

/-- One-step unfolding of the retry loop. -/
theorem retryGo_succ {α : Type} (f : Nat → Except Err α) (n fuel : Nat) :
    retryGo f n (fuel + 1) =
      match f n with
      | .ok a => ⟨.ok a, n, []⟩
      | .error e =>
        if isTransientErr e.kind then
          if fuel = 0 then ⟨.error e, n, []⟩
          else
            ⟨(retryGo f (n + 1) fuel).result, (retryGo f (n + 1) fuel).lastAttempt,
             waitExponential 1 2 10 n :: (retryGo f (n + 1) fuel).delays⟩
        else ⟨.error e, n, []⟩ := rfl

/-- A successful attempt stops the loop at once. -/
theorem retryGo_ok {α : Type} (f : Nat → Except Err α) {n fuel : Nat} {a : α}
    (h : f n = .ok a) : retryGo f n (fuel + 1) = ⟨.ok a, n, []⟩ := by
  rw [retryGo_succ, h]

/-- A non-transient exception is re-raised at once, with no sleep. -/
theorem retryGo_nontransient {α : Type} (f : Nat → Except Err α) {n fuel : Nat} {e : Err}
    (h : f n = .error e) (ht : isTransientErr e.kind = false) :
    retryGo f n (fuel + 1) = ⟨.error e, n, []⟩ := by
  rw [retryGo_succ, h]
  simp [ht]

/-- A transient exception on the final allowed attempt is re-raised as-is. -/
theorem retryGo_transient_last {α : Type} (f : Nat → Except Err α) {n : Nat} {e : Err}
    (h : f n = .error e) (ht : isTransientErr e.kind = true) :
    retryGo f n 1 = ⟨.error e, n, []⟩ := by
  rw [show (1 : Nat) = 0 + 1 from rfl, retryGo_succ, h]
  simp [ht]

/-- A transient exception with attempts remaining triggers a backoff sleep
and another attempt. -/
theorem retryGo_transient_step {α : Type} (f : Nat → Except Err α) {n fuel : Nat} {e : Err}
    (h : f n = .error e) (ht : isTransientErr e.kind = true) :
    retryGo f n (fuel + 2) =
      ⟨(retryGo f (n + 1) (fuel + 1)).result, (retryGo f (n + 1) (fuel + 1)).lastAttempt,
       waitExponential 1 2 10 n :: (retryGo f (n + 1) (fuel + 1)).delays⟩ := by
  rw [show fuel + 2 = (fuel + 1) + 1 from rfl, retryGo_succ, h]
  simp [ht]

/-- The attempt on which the loop stops lies between the first attempt
number and the attempt ceiling. -/
theorem retryGo_lastAttempt_bounds {α : Type} (f : Nat → Except Err α) :
    ∀ (fuel n : Nat), n ≤ (retryGo f n (fuel + 1)).lastAttempt
      ∧ (retryGo f n (fuel + 1)).lastAttempt ≤ n + fuel
  | 0, n => by
    cases h : f n with
    | ok a => rw [retryGo_ok f h]; exact ⟨Nat.le_refl _, Nat.le_add_right _ _⟩
    | error e =>
      cases ht : isTransientErr e.kind with
      | false => rw [retryGo_nontransient f h ht]; exact ⟨Nat.le_refl _, Nat.le_add_right _ _⟩
      | true => rw [retryGo_transient_last f h ht]; exact ⟨Nat.le_refl _, Nat.le_add_right _ _⟩
  | fuel + 1, n => by
    cases h : f n with
    | ok a => rw [retryGo_ok f h]; exact ⟨Nat.le_refl _, Nat.le_add_right _ _⟩
    | error e =>
      cases ht : isTransientErr e.kind with
      | false => rw [retryGo_nontransient f h ht]; exact ⟨Nat.le_refl _, Nat.le_add_right _ _⟩
      | true =>
        have ih := retryGo_lastAttempt_bounds f fuel (n + 1)
        rw [retryGo_transient_step f h ht]
        constructor
        · show n ≤ (retryGo f (n + 1) (fuel + 1)).lastAttempt
          omega
        · show (retryGo f (n + 1) (fuel + 1)).lastAttempt ≤ n + (fuel + 1)
          omega

/-- With one allowed attempt no sleep ever happens. -/
theorem retryGo_delays_one {α : Type} (f : Nat → Except Err α) (n : Nat) :
    (retryGo f n 1).delays = [] := by
  cases h : f n with
  | ok a => rw [retryGo_ok f h]
  | error e =>
    cases ht : isTransientErr e.kind with
    | false => rw [retryGo_nontransient f h ht]
    | true => rw [retryGo_transient_last f h ht]

/-- C6: the decorator on `AI._make_request` makes at most 3 attempts;
any exception outside the transient classes is re-raised at once with no
sleep and no further attempt; a transient exception on the first attempt
does trigger at least a second attempt; the backoff sleeps of a full run
are a prefix of `[2, 4]` (so the per-attempt delay starts at 2 time units);
the exponential delay is capped at 10; and the transient classes are
exactly `APIError` and `RateLimitError` — `ValueError` (parse/validation
failure) and every other exception are non-transient. -/
theorem retry_policy_spec :
    (∀ f : Nat → Except Err Nat, (makeRequestRetry f).lastAttempt ≤ 3)
    ∧ (∀ (f : Nat → Except Err Nat) (n fuel : Nat) (e : Err),
        f n = .error e → isTransientErr e.kind = false →
        retryGo f n (fuel + 1) = ⟨.error e, n, []⟩)
    ∧ (∀ (f : Nat → Except Err Nat) (e : Err),
        f 1 = .error e → isTransientErr e.kind = true →
        2 ≤ (makeRequestRetry f).lastAttempt)
    ∧ (∀ f : Nat → Except Err Nat,
        (makeRequestRetry f).delays = [] ∨ (makeRequestRetry f).delays = [2]
          ∨ (makeRequestRetry f).delays = [2, 4])
    ∧ (waitExponential 1 2 10 1 = 2 ∧ ∀ n : Nat, waitExponential 1 2 10 n ≤ 10)
    ∧ (isTransientErr .apiError = true ∧ isTransientErr .rateLimitError = true
        ∧ isTransientErr .valueError = false ∧ isTransientErr .otherError = false) := by
  refine ⟨?_, ?_, ?_, ?_, ⟨by decide, ?_⟩, by decide⟩
  · intro f
    have h := (retryGo_lastAttempt_bounds f 2 1).2
    simpa [makeRequestRetry] using h
  · intro f n fuel e h ht
    exact retryGo_nontransient f h ht
  · intro f e h ht
    rw [makeRequestRetry, retryGo_transient_step f h ht]
    show 2 ≤ (retryGo f 2 2).lastAttempt
    exact (retryGo_lastAttempt_bounds f 1 2).1
  · intro f
    rw [makeRequestRetry]
    cases h1 : f 1 with
    | ok a => rw [retryGo_ok f h1]; left; rfl
    | error e1 =>
      cases ht1 : isTransientErr e1.kind with
      | false => rw [retryGo_nontransient f h1 ht1]; left; rfl
      | true =>
        rw [retryGo_transient_step f h1 ht1]
        show waitExponential 1 2 10 1 :: (retryGo f 2 2).delays = [] ∨ _ ∨ _
        have hw1 : waitExponential 1 2 10 1 = 2 := by decide
        cases h2 : f 2 with
        | ok a => rw [retryGo_ok f h2, hw1]; right; left; rfl
        | error e2 =>
          cases ht2 : isTransientErr e2.kind with
          | false => rw [retryGo_nontransient f h2 ht2, hw1]; right; left; rfl
          | true =>
            rw [retryGo_transient_step f h2 ht2, hw1]
            have hw2 : waitExponential 1 2 10 2 = 4 := by decide
            rw [retryGo_delays_one f 3, hw2]
            right; right; rfl
  · intro n
    have h1 : min (1 * 2 ^ n) 10 ≤ 10 := Nat.min_le_right _ _
    have h2 : (2 : Nat) ≤ 10 := by omega
    exact max_le h2 h1

/-- Witness for C6: a parse failure (`ValueError`) on the first attempt is
re-raised at once, consuming no retry. -/
theorem retry_policy_witness :
    retryGo (fun _ => (.error ⟨.valueError, "failed to parse response"⟩ : Except Err Nat)) 1 (2 + 1)
      = ⟨.error ⟨.valueError, "failed to parse response"⟩, 1, []⟩ :=
  retry_policy_spec.2.1 (fun _ => .error ⟨.valueError, "failed to parse response"⟩) 1 2
    ⟨.valueError, "failed to parse response"⟩ rfl rfl

/-- A body that is rate-limited on every attempt. -/
def alwaysRateLimited : Nat → Except Err Nat :=
  fun _ => .error ⟨.rateLimitError, "rate limited"⟩

/-- C7 counterexample: with `reraise=True`, exhausting the attempts on a
transient error re-raises the third attempt's error object verbatim — its
message is the original `"rate limited"`, which carries no attempt-count
annotation (it does not even contain the digit 3). -/
theorem retry_exhaustion_counterexample :
    makeRequestRetry alwaysRateLimited
      = ⟨.error ⟨.rateLimitError, "rate limited"⟩, 3, [2, 4]⟩
    ∧ containsSub "3".data "rate limited".data = false := by decide

/-- C7 (amended): when the retry wrapper exhausts all 3 attempts on
transient errors, it re-raises the last transient error unchanged — not a
new error and not one annotated with the attempt count (`reraise=True`);
the attempt-count-annotated `ValueError` of the route layer is a separate,
outer retry loop. -/
theorem retry_exhaustion_amended :
    ∀ (f : Nat → Except Err Nat) (e1 e2 e3 : Err),
      f 1 = .error e1 → f 2 = .error e2 → f 3 = .error e3 →
      isTransientErr e1.kind = true → isTransientErr e2.kind = true →
      isTransientErr e3.kind = true →
      makeRequestRetry f = ⟨.error e3, 3, [2, 4]⟩ := by
  intro f e1 e2 e3 h1 h2 h3 t1 t2 t3
  rw [makeRequestRetry, retryGo_transient_step f h1 t1, retryGo_transient_step f h2 t2,
    retryGo_transient_last f h3 t3]
  have hw1 : waitExponential 1 2 10 1 = 2 := by decide
  have hw2 : waitExponential 1 2 10 2 = 4 := by decide
  rw [hw1, hw2]

/-- Witness for C7 (amended): a body that fails with an `APIError` on every
attempt ends with that exact error after 3 attempts and sleeps 2 then 4. -/
theorem retry_exhaustion_witness :
    makeRequestRetry (fun _ => (.error ⟨.apiError, "service unavailable"⟩ : Except Err Nat))
      = ⟨.error ⟨.apiError, "service unavailable"⟩, 3, [2, 4]⟩ :=
  retry_exhaustion_amended _ ⟨.apiError, "service unavailable"⟩
    ⟨.apiError, "service unavailable"⟩ ⟨.apiError, "service unavailable"⟩
    rfl rfl rfl rfl rfl rfl
